import Mathlib

/-!
Shallow embedding of `src/Core/Src/ACDC_CLOCK.c` (STM32F103xB clock
configuration driver).

Registers (`RCC->CR`, `RCC->CFGR`, `FLASH->ACR`) are modelled as natural
numbers holding 32-bit values; every register access in the C source is a
read-modify-write of the form `reg = (reg & ~clear) | set` (this covers
`|=` with `clear = 0`, `&= ~m` with `set = 0`, `SET_BIT`, `CLEAR_BIT` and
`MODIFY_REG`).  Busy-wait loops poll hardware-driven status bits and do not
modify software-visible state; they are recorded in the execution trace as
`wait` events carrying the polled mask and the polarity on which the loop
exits.  The private `static` variables (`currentSCS`, `APB1_Prescaler`,
`APB2_Prescaler`) are fields of the state.

Register-field constants are the standard CMSIS `stm32f103xb.h` values
used by the source.
-/

namespace ACDC

/-! ### CMSIS register-field constants (stm32f103xb.h) -/

def RCC_CR_HSEON      : Nat := 0x00010000
def RCC_CR_HSERDY     : Nat := 0x00020000
def RCC_CR_PLLON      : Nat := 0x01000000
def RCC_CR_PLLRDY     : Nat := 0x02000000

def RCC_CFGR_SW_Msk   : Nat := 0x00000003
def RCC_CFGR_SW_HSE   : Nat := 0x00000001
def RCC_CFGR_SW_PLL   : Nat := 0x00000002
def RCC_CFGR_SWS_HSE  : Nat := 0x00000004
def RCC_CFGR_SWS_PLL  : Nat := 0x00000008

def RCC_CFGR_HPRE_Msk  : Nat := 0x000000F0
def RCC_CFGR_HPRE_DIV1 : Nat := 0x00000000
def RCC_CFGR_HPRE_DIV2 : Nat := 0x00000080
def RCC_CFGR_HPRE_DIV4 : Nat := 0x00000090
def RCC_CFGR_HPRE_DIV8 : Nat := 0x000000A0

def RCC_CFGR_PPRE1_Pos : Nat := 8
def RCC_CFGR_PPRE1_Msk : Nat := 0x00000700
def RCC_CFGR_PPRE2_Pos : Nat := 11
def RCC_CFGR_PPRE2_Msk : Nat := 0x00003800

def RCC_CFGR_ADCPRE_Msk : Nat := 0x0000C000

def RCC_CFGR_PLLSRC   : Nat := 0x00010000
def RCC_CFGR_PLLXTPRE_Msk      : Nat := 0x00020000
def RCC_CFGR_PLLXTPRE_HSE      : Nat := 0x00000000
def RCC_CFGR_PLLXTPRE_HSE_DIV2 : Nat := 0x00020000

def RCC_CFGR_PLLMULL_Pos : Nat := 18
def RCC_CFGR_PLLMULL_Msk : Nat := 0x003C0000

def RCC_CFGR_MCO_Msk         : Nat := 0x07000000
def RCC_CFGR_MCO_NOCLOCK     : Nat := 0x00000000
def RCC_CFGR_MCO_SYSCLK      : Nat := 0x04000000
def RCC_CFGR_MCO_HSI         : Nat := 0x05000000
def RCC_CFGR_MCO_HSE         : Nat := 0x06000000
def RCC_CFGR_MCO_PLLCLK_DIV2 : Nat := 0x07000000

def FLASH_ACR_LATENCY_Msk : Nat := 0x00000007
def FLASH_ACR_LATENCY_0   : Nat := 0x00000000
def FLASH_ACR_LATENCY_1   : Nat := 0x00000001
def FLASH_ACR_LATENCY_2   : Nat := 0x00000002
def FLASH_ACR_PRFTBE      : Nat := 0x00000010
def FLASH_ACR_PRFTBS      : Nat := 0x00000020

/-- Bitwise complement of a 32-bit mask, as it appears in the C source
(`~m` evaluated at `uint32_t`). -/
def NOT32 (m : Nat) : Nat := 0xFFFFFFFF ^^^ m

/-! ### Enumerations from `ACDC_CLOCK.h`

Modelled from the spec: the header `ACDC_CLOCK.h` is not under `src/`;
the spec describes `SystemClockSpeed` as an "enumerated target frequency
(discrete set of named values, e.g. 1-72 MHz in the supported steps)" and
the source arithmetic (`SCS_x / 8000000 - 2`, comparisons with
`SCS_24MHz`, ...) shows the enumerators are the frequency values in Hz.
C enums are integers, so these are plain `Nat` constants. -/

def SCS_1MHz  : Nat :=  1000000
def SCS_2MHz  : Nat :=  2000000
def SCS_3MHz  : Nat :=  3000000
def SCS_4MHz  : Nat :=  4000000
def SCS_5MHz  : Nat :=  5000000
def SCS_6MHz  : Nat :=  6000000
def SCS_7MHz  : Nat :=  7000000
def SCS_8MHz  : Nat :=  8000000
def SCS_9MHz  : Nat :=  9000000
def SCS_10MHz : Nat := 10000000
def SCS_11MHz : Nat := 11000000
def SCS_12MHz : Nat := 12000000
def SCS_13MHz : Nat := 13000000
def SCS_14MHz : Nat := 14000000
def SCS_15MHz : Nat := 15000000
def SCS_16MHz : Nat := 16000000
def SCS_18MHz : Nat := 18000000
def SCS_20MHz : Nat := 20000000
def SCS_22MHz : Nat := 22000000
def SCS_24MHz : Nat := 24000000
def SCS_26MHz : Nat := 26000000
def SCS_28MHz : Nat := 28000000
def SCS_30MHz : Nat := 30000000
def SCS_32MHz : Nat := 32000000
def SCS_36MHz : Nat := 36000000
def SCS_40MHz : Nat := 40000000
def SCS_44MHz : Nat := 44000000
def SCS_48MHz : Nat := 48000000
def SCS_52MHz : Nat := 52000000
def SCS_56MHz : Nat := 56000000
def SCS_60MHz : Nat := 60000000
def SCS_64MHz : Nat := 64000000
def SCS_72MHz : Nat := 72000000

/-- Modelled from the spec: `APB_Prescaler` is an "enumerated divisor
{1,2,4,8,16} applied to a bus clock"; the source masks the enumerator
with `0b111` and shifts it into the hardware `PPRE` field, so the
enumerators carry the hardware PPRE encodings (`0xx` = /1, `100` = /2,
`101` = /4, `110` = /8, `111` = /16). -/
def APB_DIV_1  : Nat := 0b000
def APB_DIV_2  : Nat := 0b100
def APB_DIV_4  : Nat := 0b101
def APB_DIV_8  : Nat := 0b110
def APB_DIV_16 : Nat := 0b111

/-- `#define MAX_MCO_CLK_SPEED 50000000` (ACDC_CLOCK.c line 15). -/
def MAX_MCO_CLK_SPEED : Nat := 50000000

/-! ### Machine state and event-trace semantics -/

/-- The software-visible machine state: the three registers the driver
touches and the three private `static` variables of `ACDC_CLOCK.c`. -/
structure St where
  cr         : Nat   -- RCC->CR
  cfgr       : Nat   -- RCC->CFGR
  acr        : Nat   -- FLASH->ACR
  currentSCS : Nat   -- static SystemClockSpeed currentSCS
  apb1       : Nat   -- static APB_Prescaler APB1_Prescaler
  apb2       : Nat   -- static APB_Prescaler APB2_Prescaler
  deriving DecidableEq, Repr

/-- One primitive step of the driver, in source order.  A `write*` event
performs `reg = (reg & ~clear) | set`; a `wait*` event is a busy-wait
loop polling `reg & mask`, exiting when the masked value is nonzero
(`untilSet = true`, loops of the form `while(!(reg & mask))`) or zero
(`untilSet = false`, loops of the form `while(reg & mask)`).  `timerInit`
is the call to `TIMER_Init`, `gpioCfg` the call to `GPIO_PinDirection`,
and the `set*Var` events are assignments to the private variables. -/
inductive Ev where
  | writeCR   (clear set : Nat)
  | writeCFGR (clear set : Nat)
  | writeACR  (clear set : Nat)
  | waitCR    (mask : Nat) (untilSet : Bool)
  | waitCFGR  (mask : Nat) (untilSet : Bool)
  | waitACR   (mask : Nat) (untilSet : Bool)
  | timerInit (scs : Nat)
  | gpioCfg
  | setSCSVar  (v : Nat)
  | setAPB1Var (v : Nat)
  | setAPB2Var (v : Nat)
  deriving DecidableEq, Repr

/-- Effect of one event on the state.  Waits and external calls do not
change the software-visible state. -/
def step (st : St) : Ev → St
  | .writeCR c s   => { st with cr   := (st.cr   &&& NOT32 c) ||| s }
  | .writeCFGR c s => { st with cfgr := (st.cfgr &&& NOT32 c) ||| s }
  | .writeACR c s  => { st with acr  := (st.acr  &&& NOT32 c) ||| s }
  | .waitCR _ _    => st
  | .waitCFGR _ _  => st
  | .waitACR _ _   => st
  | .timerInit _   => st
  | .gpioCfg       => st
  | .setSCSVar v   => { st with currentSCS := v }
  | .setAPB1Var v  => { st with apb1 := v }
  | .setAPB2Var v  => { st with apb2 := v }

/-- Run a list of events. -/
def applyEvs : List Ev → St → St
  | [],      st => st
  | e :: es, st => applyEvs es (step st e)

/-- Power-on state: the C `static` variables are zero-initialised; the
hardware reset values of the registers are `RCC->CR = 0x83` (HSI on and
ready), `RCC->CFGR = 0`, `FLASH->ACR = 0x30` (prefetch enabled). -/
def initialState : St :=
  { cr := 0x83, cfgr := 0, acr := 0x30, currentSCS := 0, apb1 := 0, apb2 := 0 }

/-! ### The driver functions as event traces (ACDC_CLOCK.c) -/

/-- `static void EnableHSI_DisablePLL(void)` (lines 181-191). -/
def EnableHSI_DisablePLL_evs : List Ev :=
  [ .writeCR 0 RCC_CR_HSEON,            -- RCC->CR |= RCC_CR_HSEON
    .waitCR RCC_CR_HSERDY true,         -- while(!(RCC->CR & RCC_CR_HSERDY)){}
    .writeCFGR RCC_CFGR_SW_Msk 0,       -- RCC->CFGR &= ~RCC_CFGR_SW_Msk
    .writeCFGR 0 RCC_CFGR_SW_HSE,       -- RCC->CFGR |= RCC_CFGR_SW_HSE
    .waitCFGR RCC_CFGR_SWS_HSE true,    -- while(!(RCC->CFGR & RCC_CFGR_SWS_HSE)){}
    .writeCR RCC_CR_PLLON 0 ]           -- RCC->CR &= ~RCC_CR_PLLON

/-- `static void DisableHSI_EnablePLL(void)` (lines 171-179). -/
def DisableHSI_EnablePLL_evs : List Ev :=
  [ .writeCR 0 RCC_CR_PLLON,            -- RCC->CR |= RCC_CR_PLLON
    .waitCR RCC_CR_PLLRDY true,         -- while(!(RCC->CR & RCC_CR_PLLRDY)){}
    .writeCFGR RCC_CFGR_SW_Msk 0,       -- RCC->CFGR &= ~RCC_CFGR_SW_Msk
    .writeCFGR 0 RCC_CFGR_SW_PLL,       -- RCC->CFGR |= RCC_CFGR_SW_PLL
    .waitCFGR RCC_CFGR_SWS_PLL true ]   -- while(!(RCC->CFGR & RCC_CFGR_SWS_PLL)){}

/-- Flash latency selection of `SetFlashMemorySpeed` (lines 203-209). -/
def flashLatencyFor (SCS_x : Nat) : Nat :=
  if SCS_x ≤ SCS_24MHz then FLASH_ACR_LATENCY_0
  else if SCS_x ≤ SCS_48MHz then FLASH_ACR_LATENCY_1
  else FLASH_ACR_LATENCY_2

/-- `static void SetFlashMemorySpeed(SystemClockSpeed, uint32_t)`
(lines 193-212).  Note: both busy-wait loops in the source are
`while((READ_BIT(FLASH->ACR, FLASH_ACR_PRFTBS))){}` — each exits only
when the polled status bit reads zero. -/
def SetFlashMemorySpeed_evs (SCS_x RCC_CFGR_HPRE_x : Nat) : List Ev :=
  (if RCC_CFGR_HPRE_x = RCC_CFGR_HPRE_DIV1 then
    [ .writeACR FLASH_ACR_PRFTBE 0,         -- CLEAR_BIT(FLASH->ACR, FLASH_ACR_PRFTBE)
      .waitACR FLASH_ACR_PRFTBS false ]     -- while((READ_BIT(FLASH->ACR, FLASH_ACR_PRFTBS))){}
   else
    [ .writeACR 0 FLASH_ACR_PRFTBE,         -- SET_BIT(FLASH->ACR, FLASH_ACR_PRFTBE)
      .waitACR FLASH_ACR_PRFTBS false ])    -- while((READ_BIT(FLASH->ACR, FLASH_ACR_PRFTBS))){}
  ++ [ .writeACR FLASH_ACR_LATENCY_Msk (flashLatencyFor SCS_x) ]
         -- MODIFY_REG(FLASH->ACR, FLASH_ACR_LATENCY_Msk, flashLatency)

/-- `void CLOCK_SetAPB1Prescaler(APB_Prescaler)` (lines 157-161). -/
def CLOCK_SetAPB1Prescaler_evs (APB_DIV_x : Nat) : List Ev :=
  [ .writeCFGR RCC_CFGR_PPRE1_Msk ((APB_DIV_x &&& 0b111) <<< RCC_CFGR_PPRE1_Pos),
    .setAPB1Var APB_DIV_x ]

/-- `void CLOCK_SetAPB2Prescaler(APB_Prescaler)` (lines 163-167). -/
def CLOCK_SetAPB2Prescaler_evs (APB_DIV_x : Nat) : List Ev :=
  [ .writeCFGR RCC_CFGR_PPRE2_Msk ((APB_DIV_x &&& 0b111) <<< RCC_CFGR_PPRE2_Pos),
    .setAPB2Var APB_DIV_x ]

/-- `void CLOCK_SetADCPrescaler(ADC_Prescaler)` (lines 153-155). -/
def CLOCK_SetADCPrescaler_evs (ADC_DIV_x : Nat) : List Ev :=
  [ .writeCFGR RCC_CFGR_ADCPRE_Msk ADC_DIV_x ]

/-- The `switch (SCS_x)` statement of `CLOCK_SetSystemClockSpeed`
(lines 48-114).  Each group of `case` labels becomes a membership test
on the frequencies of that band; `default:` contributes no events. -/
def bandEvents (SCS_x : Nat) : List Ev :=
  if SCS_x ∈ [SCS_16MHz, SCS_24MHz, SCS_32MHz, SCS_40MHz,
              SCS_48MHz, SCS_56MHz, SCS_64MHz, SCS_72MHz] then
    SetFlashMemorySpeed_evs SCS_x RCC_CFGR_HPRE_DIV1
    ++ [ .writeCFGR 0 RCC_CFGR_HPRE_DIV1,                              -- AHB Prescaler DIV1
         .writeCFGR 0 RCC_CFGR_PLLXTPRE_HSE,                           -- HSE No DIV into PLL Src Mux
         .writeCFGR 0 ((SCS_x / 8000000 - 2) <<< RCC_CFGR_PLLMULL_Pos) ]
  else if SCS_x ∈ [SCS_8MHz, SCS_12MHz, SCS_20MHz, SCS_28MHz,
                   SCS_36MHz, SCS_44MHz, SCS_52MHz, SCS_60MHz] then
    SetFlashMemorySpeed_evs SCS_x RCC_CFGR_HPRE_DIV1
    ++ [ .writeCFGR 0 RCC_CFGR_HPRE_DIV1,                              -- AHB Prescaler DIV1
         .writeCFGR 0 RCC_CFGR_PLLXTPRE_HSE_DIV2,                      -- HSE DIV2 into PLL Src Mux
         .writeCFGR 0 ((SCS_x / 4000000 - 2) <<< RCC_CFGR_PLLMULL_Pos) ]
  else if SCS_x ∈ [SCS_4MHz, SCS_6MHz, SCS_10MHz, SCS_14MHz,
                   SCS_18MHz, SCS_22MHz, SCS_26MHz, SCS_30MHz] then
    SetFlashMemorySpeed_evs SCS_x RCC_CFGR_HPRE_DIV2
    ++ [ .writeCFGR 0 RCC_CFGR_HPRE_DIV2,                              -- AHB Prescaler DIV2
         .writeCFGR 0 RCC_CFGR_PLLXTPRE_HSE_DIV2,                      -- HSE DIV2 into PLL Src Mux
         .writeCFGR 0 ((SCS_x / 2000000 - 2) <<< RCC_CFGR_PLLMULL_Pos) ]
  else if SCS_x ∈ [SCS_2MHz, SCS_3MHz, SCS_5MHz, SCS_7MHz,
                   SCS_9MHz, SCS_11MHz, SCS_13MHz, SCS_15MHz] then
    SetFlashMemorySpeed_evs SCS_x RCC_CFGR_HPRE_DIV4
    ++ [ .writeCFGR 0 RCC_CFGR_HPRE_DIV4,                              -- AHB Prescaler DIV4
         .writeCFGR 0 RCC_CFGR_PLLXTPRE_HSE_DIV2,                      -- HSE DIV2 into PLL Src Mux
         .writeCFGR 0 ((SCS_x / 1000000 - 2) <<< RCC_CFGR_PLLMULL_Pos) ]
  else if SCS_x = SCS_1MHz then
    SetFlashMemorySpeed_evs SCS_x RCC_CFGR_HPRE_DIV8
    ++ [ .writeCFGR 0 RCC_CFGR_HPRE_DIV8,                              -- AHB Prescaler DIV8
         .writeCFGR 0 RCC_CFGR_PLLXTPRE_HSE_DIV2,                      -- HSE DIV2 into PLL Src Mux
         .writeCFGR 0 ((SCS_x / 500000 - 2) <<< RCC_CFGR_PLLMULL_Pos) ]
  else []                                                              -- default: break

/-- `void CLOCK_SetSystemClockSpeed(SystemClockSpeed)` (lines 40-122). -/
def CLOCK_SetSystemClockSpeed_evs (SCS_x : Nat) : List Ev :=
  [ .writeCFGR 0 RCC_CFGR_PLLSRC ]       -- RCC->CFGR |= RCC_CFGR_PLLSRC
  ++ EnableHSI_DisablePLL_evs            -- EnableHSI_DisablePLL()
  ++ [ .writeCFGR (RCC_CFGR_PLLXTPRE_Msk ||| RCC_CFGR_PLLMULL_Msk |||
                   RCC_CFGR_HPRE_Msk ||| RCC_CFGR_PPRE1_Msk) 0 ]
         -- RCC->CFGR &= ~(PLLXTPRE_Msk | PLLMULL_Msk | HPRE_Msk | PPRE1_Msk)
  ++ bandEvents SCS_x                    -- switch (SCS_x) { ... }
  ++ CLOCK_SetAPB1Prescaler_evs
       (if SCS_x > SCS_36MHz then APB_DIV_2 else APB_DIV_1)
         -- APB_Prescaler prescaler = SCS_x > SCS_36MHz ? APB_DIV_2 : APB_DIV_1;
         -- CLOCK_SetAPB1Prescaler(prescaler);
  ++ DisableHSI_EnablePLL_evs            -- DisableHSI_EnablePLL()
  ++ [ .timerInit SCS_x,                 -- TIMER_Init(SCS_x)
       .setSCSVar SCS_x ]                -- currentSCS = SCS_x

/-- `void CLOCK_SetMcoOutput(MicroClockOutput)` (lines 141-151).  The
selector written is the caller's `MCO_x` unless the tracked system clock
exceeds `MAX_MCO_CLK_SPEED`, in which case `RCC_CFGR_MCO_PLLCLK_DIV2` is
forced. -/
def CLOCK_SetMcoOutput_evs (MCO_x : Nat) (st : St) : List Ev :=
  [ .gpioCfg,                            -- GPIO_PinDirection(GPIOA, GPIO_PIN_8, ...)
    .writeCFGR RCC_CFGR_MCO_Msk
      (if st.currentSCS > MAX_MCO_CLK_SPEED then RCC_CFGR_MCO_PLLCLK_DIV2
       else MCO_x) ]
         -- int regVal = RCC->CFGR & ~(RCC_CFGR_MCO_Msk);
         -- RCC->CFGR = regVal | (currentSCS > MAX ? MCO_PLLCLK_DIV2 : MCO_x)

/-! ### State-transformer forms and the query functions -/

def CLOCK_SetSystemClockSpeed (SCS_x : Nat) (st : St) : St :=
  applyEvs (CLOCK_SetSystemClockSpeed_evs SCS_x) st

def CLOCK_SetMcoOutput (MCO_x : Nat) (st : St) : St :=
  applyEvs (CLOCK_SetMcoOutput_evs MCO_x st) st

def CLOCK_SetAPB1Prescaler (APB_DIV_x : Nat) (st : St) : St :=
  applyEvs (CLOCK_SetAPB1Prescaler_evs APB_DIV_x) st

def CLOCK_SetAPB2Prescaler (APB_DIV_x : Nat) (st : St) : St :=
  applyEvs (CLOCK_SetAPB2Prescaler_evs APB_DIV_x) st

def CLOCK_SetADCPrescaler (ADC_DIV_x : Nat) (st : St) : St :=
  applyEvs (CLOCK_SetADCPrescaler_evs ADC_DIV_x) st

/-- `SystemClockSpeed CLOCK_GetSystemClockSpeed(void)` (lines 124-126):
returns `currentSCS`; it performs no writes (pure read of state). -/
def CLOCK_GetSystemClockSpeed (st : St) : Nat := st.currentSCS

/-- `static int APBxPrescalerToDivisor(APB_Prescaler)` (lines 214-227). -/
def APBxPrescalerToDivisor (APB_DIV_x : Nat) : Nat :=
  if APB_DIV_x = APB_DIV_16 then 16
  else if APB_DIV_x = APB_DIV_8 then 8
  else if APB_DIV_x = APB_DIV_4 then 4
  else if APB_DIV_x = APB_DIV_2 then 2
  else 1                                 -- default: APB_DIV_1

/-- `SystemClockSpeed CLOCK_GetAPB1ClockSpeed(void)` (lines 128-130). -/
def CLOCK_GetAPB1ClockSpeed (st : St) : Nat :=
  CLOCK_GetSystemClockSpeed st / APBxPrescalerToDivisor st.apb1

/-- `SystemClockSpeed CLOCK_GetAPB2ClockSpeed(void)` (lines 132-134). -/
def CLOCK_GetAPB2ClockSpeed (st : St) : Nat :=
  CLOCK_GetSystemClockSpeed st / APBxPrescalerToDivisor st.apb2

/-- `SystemClockSpeed CLOCK_GetAPB1TimerClockSpeed(void)` (lines 136-138). -/
def CLOCK_GetAPB1TimerClockSpeed (st : St) : Nat :=
  CLOCK_GetAPB1ClockSpeed st * 2

/-- The set of `case` labels of the `switch` in `CLOCK_SetSystemClockSpeed`:
the supported target frequencies. -/
def supportedSpeeds : List Nat :=
  [SCS_16MHz, SCS_24MHz, SCS_32MHz, SCS_40MHz, SCS_48MHz, SCS_56MHz, SCS_64MHz, SCS_72MHz,
   SCS_8MHz, SCS_12MHz, SCS_20MHz, SCS_28MHz, SCS_36MHz, SCS_44MHz, SCS_52MHz, SCS_60MHz,
   SCS_4MHz, SCS_6MHz, SCS_10MHz, SCS_14MHz, SCS_18MHz, SCS_22MHz, SCS_26MHz, SCS_30MHz,
   SCS_2MHz, SCS_3MHz, SCS_5MHz, SCS_7MHz, SCS_9MHz, SCS_11MHz, SCS_13MHz, SCS_15MHz,
   SCS_1MHz]

/-! ### Reference table for claim C1 (transcribed from the spec's words)

These three functions are the claim's fixed band table, written from the
spec, to be compared with the behaviour of the embedded source code. -/

/-- Expected AHB prescaler bits per the claim's band table: targets in
the two high bands get DIV1, the {4..30} band DIV2, the {2..15} band
DIV4, and 1 MHz DIV8. -/
def specAHB (s : Nat) : Nat :=
  if s ∈ [SCS_16MHz, SCS_24MHz, SCS_32MHz, SCS_40MHz,
          SCS_48MHz, SCS_56MHz, SCS_64MHz, SCS_72MHz] then RCC_CFGR_HPRE_DIV1
  else if s ∈ [SCS_8MHz, SCS_12MHz, SCS_20MHz, SCS_28MHz,
               SCS_36MHz, SCS_44MHz, SCS_52MHz, SCS_60MHz] then RCC_CFGR_HPRE_DIV1
  else if s ∈ [SCS_4MHz, SCS_6MHz, SCS_10MHz, SCS_14MHz,
               SCS_18MHz, SCS_22MHz, SCS_26MHz, SCS_30MHz] then RCC_CFGR_HPRE_DIV2
  else if s ∈ [SCS_2MHz, SCS_3MHz, SCS_5MHz, SCS_7MHz,
               SCS_9MHz, SCS_11MHz, SCS_13MHz, SCS_15MHz] then RCC_CFGR_HPRE_DIV4
  else RCC_CFGR_HPRE_DIV8

/-- Expected PLL-input predivider bit per the claim's band table: the
{16..72} band feeds HSE undivided into the PLL, every other band feeds
HSE/2. -/
def specPrediv (s : Nat) : Nat :=
  if s ∈ [SCS_16MHz, SCS_24MHz, SCS_32MHz, SCS_40MHz,
          SCS_48MHz, SCS_56MHz, SCS_64MHz, SCS_72MHz] then RCC_CFGR_PLLXTPRE_HSE
  else RCC_CFGR_PLLXTPRE_HSE_DIV2

/-- Expected PLL multiplier field per the claim's band table:
`target / referenceStep - 2` with reference steps 8 MHz, 4 MHz, 2 MHz,
1 MHz and 500 kHz for the five bands. -/
def specMullField (s : Nat) : Nat :=
  if s ∈ [SCS_16MHz, SCS_24MHz, SCS_32MHz, SCS_40MHz,
          SCS_48MHz, SCS_56MHz, SCS_64MHz, SCS_72MHz] then s / 8000000 - 2
  else if s ∈ [SCS_8MHz, SCS_12MHz, SCS_20MHz, SCS_28MHz,
               SCS_36MHz, SCS_44MHz, SCS_52MHz, SCS_60MHz] then s / 4000000 - 2
  else if s ∈ [SCS_4MHz, SCS_6MHz, SCS_10MHz, SCS_14MHz,
               SCS_18MHz, SCS_22MHz, SCS_26MHz, SCS_30MHz] then s / 2000000 - 2
  else if s ∈ [SCS_2MHz, SCS_3MHz, SCS_5MHz, SCS_7MHz,
               SCS_9MHz, SCS_11MHz, SCS_13MHz, SCS_15MHz] then s / 1000000 - 2
  else s / 500000 - 2

/-! ### Operation sequences (for the state invariants of claim C8) -/

/-- The state-mutating public operations of the driver. -/
inductive Op where
  | setSCS  (s : Nat)
  | setMco  (m : Nat)
  | setAPB1 (p : Nat)
  | setAPB2 (p : Nat)
  | setADC  (d : Nat)
  deriving DecidableEq, Repr

/-- Execute one operation. -/
def runOp (st : St) : Op → St
  | .setSCS s  => CLOCK_SetSystemClockSpeed s st
  | .setMco m  => CLOCK_SetMcoOutput m st
  | .setAPB1 p => CLOCK_SetAPB1Prescaler p st
  | .setAPB2 p => CLOCK_SetAPB2Prescaler p st
  | .setADC d  => CLOCK_SetADCPrescaler d st

/-- Execute a sequence of operations from a starting state. -/
def exec (ops : List Op) (st : St) : St := ops.foldl runOp st

/-- The argument of the last `SetSystemClockSpeed` call in an operation
sequence, if any (bookkeeping for the "last applied configuration"
invariant of claim C8). -/
def lastSCS : List Op → Option Nat
  | [] => none
  | op :: rest =>
      match lastSCS rest with
      | some s => some s
      | none =>
          match op with
          | Op.setSCS s => some s
          | _ => none

/-! ### Trace predicates and positions (for the ordering claim C5) -/

/-- Does this event modify (clear or set) any PLL predivider or PLL
multiplier bit of `RCC->CFGR`? -/
def modifiesPLLCfgBits : Ev → Bool
  | .writeCFGR c v =>
      ((c ||| v) &&& (RCC_CFGR_PLLXTPRE_Msk ||| RCC_CFGR_PLLMULL_Msk)) ≠ 0
  | _ => false

/-- Does this event set bits in the AHB prescaler, PLL predivider or PLL
multiplier fields of `RCC->CFGR` (the "apply the new configuration"
writes)? -/
def setsCoreClockCfgBits : Ev → Bool
  | .writeCFGR _ v =>
      (v &&& (RCC_CFGR_HPRE_Msk ||| RCC_CFGR_PLLXTPRE_Msk ||| RCC_CFGR_PLLMULL_Msk)) ≠ 0
  | _ => false

/-- Is this event a write to `FLASH->ACR` (prefetch / wait-state
programming)? -/
def isFlashWrite : Ev → Bool
  | .writeACR _ _ => true
  | _ => false

/-- Position of the write that requests the switch of the system clock
multiplexer to HSE (`RCC->CFGR |= RCC_CFGR_SW_HSE` inside
`EnableHSI_DisablePLL`). -/
def idxSwitchToHSE (s : Nat) : Nat :=
  (CLOCK_SetSystemClockSpeed_evs s).indexOf (Ev.writeCFGR 0 RCC_CFGR_SW_HSE)

/-- Position of the PLL disable (`RCC->CR &= ~RCC_CR_PLLON`). -/
def idxPLLDisable (s : Nat) : Nat :=
  (CLOCK_SetSystemClockSpeed_evs s).indexOf (Ev.writeCR RCC_CR_PLLON 0)

/-- Position of the PLL re-enable (`RCC->CR |= RCC_CR_PLLON` inside
`DisableHSI_EnablePLL`). -/
def idxPLLEnable (s : Nat) : Nat :=
  (CLOCK_SetSystemClockSpeed_evs s).indexOf (Ev.writeCR 0 RCC_CR_PLLON)

/-- Position of the write that requests the switch of the system clock
multiplexer to the PLL (`RCC->CFGR |= RCC_CFGR_SW_PLL`). -/
def idxSwitchToPLL (s : Nat) : Nat :=
  (CLOCK_SetSystemClockSpeed_evs s).indexOf (Ev.writeCFGR 0 RCC_CFGR_SW_PLL)

attribute [simp] RCC_CR_HSEON RCC_CR_HSERDY RCC_CR_PLLON RCC_CR_PLLRDY
  RCC_CFGR_SW_Msk RCC_CFGR_SW_HSE RCC_CFGR_SW_PLL RCC_CFGR_SWS_HSE RCC_CFGR_SWS_PLL
  RCC_CFGR_HPRE_Msk RCC_CFGR_HPRE_DIV1 RCC_CFGR_HPRE_DIV2 RCC_CFGR_HPRE_DIV4 RCC_CFGR_HPRE_DIV8
  RCC_CFGR_PPRE1_Pos RCC_CFGR_PPRE1_Msk RCC_CFGR_PPRE2_Pos RCC_CFGR_PPRE2_Msk
  RCC_CFGR_ADCPRE_Msk RCC_CFGR_PLLSRC RCC_CFGR_PLLXTPRE_Msk RCC_CFGR_PLLXTPRE_HSE
  RCC_CFGR_PLLXTPRE_HSE_DIV2 RCC_CFGR_PLLMULL_Pos RCC_CFGR_PLLMULL_Msk
  RCC_CFGR_MCO_Msk RCC_CFGR_MCO_NOCLOCK RCC_CFGR_MCO_SYSCLK RCC_CFGR_MCO_HSI
  RCC_CFGR_MCO_HSE RCC_CFGR_MCO_PLLCLK_DIV2
  FLASH_ACR_LATENCY_Msk FLASH_ACR_LATENCY_0 FLASH_ACR_LATENCY_1 FLASH_ACR_LATENCY_2
  FLASH_ACR_PRFTBE FLASH_ACR_PRFTBS NOT32
  SCS_1MHz SCS_2MHz SCS_3MHz SCS_4MHz SCS_5MHz SCS_6MHz SCS_7MHz SCS_8MHz SCS_9MHz
  SCS_10MHz SCS_11MHz SCS_12MHz SCS_13MHz SCS_14MHz SCS_15MHz SCS_16MHz SCS_18MHz
  SCS_20MHz SCS_22MHz SCS_24MHz SCS_26MHz SCS_28MHz SCS_30MHz SCS_32MHz SCS_36MHz
  SCS_40MHz SCS_44MHz SCS_48MHz SCS_52MHz SCS_56MHz SCS_60MHz SCS_64MHz SCS_72MHz
  APB_DIV_1 APB_DIV_2 APB_DIV_4 APB_DIV_8 APB_DIV_16 MAX_MCO_CLK_SPEED
  step applyEvs initialState EnableHSI_DisablePLL_evs DisableHSI_EnablePLL_evs
  flashLatencyFor SetFlashMemorySpeed_evs CLOCK_SetAPB1Prescaler_evs
  CLOCK_SetAPB2Prescaler_evs CLOCK_SetADCPrescaler_evs bandEvents
  CLOCK_SetSystemClockSpeed_evs CLOCK_SetMcoOutput_evs
  CLOCK_SetSystemClockSpeed CLOCK_SetMcoOutput CLOCK_SetAPB1Prescaler
  CLOCK_SetAPB2Prescaler CLOCK_SetADCPrescaler CLOCK_GetSystemClockSpeed
  APBxPrescalerToDivisor CLOCK_GetAPB1ClockSpeed CLOCK_GetAPB2ClockSpeed
  CLOCK_GetAPB1TimerClockSpeed specAHB specPrediv specMullField

/-! ## Helper lemmas -/

/-- Bitwise conjunction distributes over disjunction on `Nat`. -/
theorem lorLandDistrib (x y m : Nat) : (x ||| y) &&& m = (x &&& m) ||| (y &&& m) := by
  apply Nat.eq_of_testBit_eq
  intro i
  simp [Nat.testBit_lor, Nat.testBit_land, Bool.and_or_distrib_right]

/-- Closing step for masked-field extraction: once the coefficient of the
symbolic register value is a closed term equal to `0` and the remaining
disjunction is a closed term equal to the expected field value, the
extraction holds. -/
theorem closedFold (c K R V : Nat) (hK : K = 0) (hR : R = V) :
    c &&& K ||| R = V := by
  subst hK hR
  simp

/-- Variant of `closedFold` for the case where the whole masked value is
the symbolic coefficient alone. -/
theorem closedFold0 (c K : Nat) (hK : K = 0) : c &&& K = 0 := by
  subst hK
  simp

/-- Running an appended event list runs the two parts in order. -/
theorem applyEvs_append (a b : List Ev) (st : St) :
    applyEvs (a ++ b) st = applyEvs b (applyEvs a st) := by
  induction a generalizing st with
  | nil => rfl
  | cons e es ih =>
      rw [List.cons_append]
      exact ih (step st e)

/-- An unsupported target falls into the `default: break` case of the
`switch`: no events are generated by the body. -/
theorem bandEvents_of_not_supported (s : Nat) (hs : s ∉ supportedSpeeds) :
    bandEvents s = [] := by
  unfold bandEvents
  split_ifs with h1 h2 h3 h4 h5
  case _ =>
    simp only [List.mem_cons, List.mem_nil_iff, or_false] at h1
    rcases h1 with rfl|rfl|rfl|rfl|rfl|rfl|rfl|rfl <;> exact absurd (by decide) hs
  case _ =>
    simp only [List.mem_cons, List.mem_nil_iff, or_false] at h2
    rcases h2 with rfl|rfl|rfl|rfl|rfl|rfl|rfl|rfl <;> exact absurd (by decide) hs
  case _ =>
    simp only [List.mem_cons, List.mem_nil_iff, or_false] at h3
    rcases h3 with rfl|rfl|rfl|rfl|rfl|rfl|rfl|rfl <;> exact absurd (by decide) hs
  case _ =>
    simp only [List.mem_cons, List.mem_nil_iff, or_false] at h4
    rcases h4 with rfl|rfl|rfl|rfl|rfl|rfl|rfl|rfl <;> exact absurd (by decide) hs
  case _ =>
    subst h5
    exact absurd (by decide) hs
  case _ => rfl

/-! ## Claims -/

set_option maxHeartbeats 4000000 in
/-- C1: for every supported `SystemClockSpeed` target, and from any prior
machine state, `CLOCK_SetSystemClockSpeed` leaves the AHB prescaler
field, the PLL predivider bit and the PLL multiplier field of `RCC->CFGR`
exactly at the values of the claim's fixed band table (`specAHB`,
`specPrediv`, `specMullField`); in particular 72 MHz yields AHB DIV1, no
predivide and multiplier field 7 (encoding x9). -/
theorem C1_band_table :
    (∀ s ∈ supportedSpeeds, ∀ st : St,
      ((CLOCK_SetSystemClockSpeed s st).cfgr &&& RCC_CFGR_HPRE_Msk = specAHB s)
      ∧ ((CLOCK_SetSystemClockSpeed s st).cfgr &&& RCC_CFGR_PLLXTPRE_Msk = specPrediv s)
      ∧ ((CLOCK_SetSystemClockSpeed s st).cfgr &&& RCC_CFGR_PLLMULL_Msk
          = specMullField s <<< RCC_CFGR_PLLMULL_Pos))
    ∧ specAHB SCS_72MHz = RCC_CFGR_HPRE_DIV1
    ∧ specPrediv SCS_72MHz = RCC_CFGR_PLLXTPRE_HSE
    ∧ specMullField SCS_72MHz = 7 := by
  refine ⟨?_, by decide, by decide, by decide⟩
  intro s hs st
  simp only [supportedSpeeds, List.mem_cons, List.mem_nil_iff, or_false] at hs
  rcases hs with rfl|rfl|rfl|rfl|rfl|rfl|rfl|rfl|rfl|rfl|rfl|rfl|rfl|rfl|rfl|rfl|rfl|rfl|
    rfl|rfl|rfl|rfl|rfl|rfl|rfl|rfl|rfl|rfl|rfl|rfl|rfl|rfl|rfl <;>
  refine ⟨?_, ?_, ?_⟩ <;>
  norm_num [lorLandDistrib, Nat.and_assoc, Nat.or_assoc] <;>
  exact closedFold _ _ _ _ (by decide) (by decide)

/-- C1 witness: the band-table theorem instantiated at 72 MHz from the
power-on state. -/
theorem C1_band_table_witness :
    SCS_72MHz ∈ supportedSpeeds
    ∧ (CLOCK_SetSystemClockSpeed SCS_72MHz initialState).cfgr &&& RCC_CFGR_PLLMULL_Msk
        = specMullField SCS_72MHz <<< RCC_CFGR_PLLMULL_Pos :=
  ⟨by decide, (C1_band_table.1 SCS_72MHz (by decide) initialState).2.2⟩

/-- C2: what the code of `SetFlashMemorySpeed` actually does with the
prefetch buffer.  With AHB prescaler DIV1 it clears `PRFTBE` and then
busy-waits with exit condition `PRFTBS = 0` (status reports disabled),
as the claim states.  With any other AHB prescaler it sets `PRFTBE` but
then busy-waits with the same exit condition `PRFTBS = 0` (status
reports *disabled*), contradicting the claim (and the source's own
comment "Wait until the buffer is enabled"): the loop polarity
`untilSet = false` records that the `while((READ_BIT(FLASH->ACR,
FLASH_ACR_PRFTBS))){}` loop exits only when the bit reads zero. -/
theorem C2_prefetch_wait_code :
    (SetFlashMemorySpeed_evs SCS_72MHz RCC_CFGR_HPRE_DIV1).take 2
      = [Ev.writeACR FLASH_ACR_PRFTBE 0, Ev.waitACR FLASH_ACR_PRFTBS false]
    ∧ (SetFlashMemorySpeed_evs SCS_4MHz RCC_CFGR_HPRE_DIV2).take 2
      = [Ev.writeACR 0 FLASH_ACR_PRFTBE, Ev.waitACR FLASH_ACR_PRFTBS false] := by
  decide

/-- C3: calling `CLOCK_SetSystemClockSpeed` with a target outside the
supported set falls through the `default` no-op case: the switch body
contributes no events, `FLASH->ACR` is never touched, the PLL
predivider / multiplier and AHB prescaler fields of `RCC->CFGR` are left
at the value the initial clear gave them (zero), yet the APB1 prescaler
is still selected by the `> 36 MHz` rule, the PLL re-enable write is
still issued, and the tracked `currentSCS` is still set to the
never-applied target. -/
theorem C3_default_unsupported (s : Nat) (hs : s ∉ supportedSpeeds) (st : St) :
    bandEvents s = []
    ∧ (CLOCK_SetSystemClockSpeed s st).acr = st.acr
    ∧ (CLOCK_SetSystemClockSpeed s st).cfgr &&&
        (RCC_CFGR_PLLXTPRE_Msk ||| RCC_CFGR_PLLMULL_Msk ||| RCC_CFGR_HPRE_Msk) = 0
    ∧ (CLOCK_SetSystemClockSpeed s st).apb1
        = (if s > SCS_36MHz then APB_DIV_2 else APB_DIV_1)
    ∧ Ev.writeCR 0 RCC_CR_PLLON ∈ CLOCK_SetSystemClockSpeed_evs s
    ∧ (CLOCK_SetSystemClockSpeed s st).currentSCS = s := by
  have hband := bandEvents_of_not_supported s hs
  refine ⟨hband, ?_, ?_, ?_, ?_, ?_⟩
  case _ =>
    simp only [CLOCK_SetSystemClockSpeed, CLOCK_SetSystemClockSpeed_evs, hband]
    by_cases h36 : s > SCS_36MHz <;>
      simp [h36, -bandEvents, -CLOCK_SetSystemClockSpeed_evs]
  case _ =>
    simp only [CLOCK_SetSystemClockSpeed, CLOCK_SetSystemClockSpeed_evs, hband]
    by_cases h36 : (36000000 : Nat) < s <;>
      norm_num [h36, -bandEvents, -CLOCK_SetSystemClockSpeed_evs,
        lorLandDistrib, Nat.and_assoc, Nat.or_assoc] <;>
      exact closedFold _ _ _ _ (by decide) (by decide)
  case _ =>
    simp only [CLOCK_SetSystemClockSpeed, CLOCK_SetSystemClockSpeed_evs, hband]
    by_cases h36 : s > SCS_36MHz <;>
      simp [h36, -bandEvents, -CLOCK_SetSystemClockSpeed_evs]
  case _ =>
    simp [CLOCK_SetSystemClockSpeed_evs, DisableHSI_EnablePLL_evs,
      -bandEvents, List.mem_append, List.mem_cons]
  case _ =>
    simp only [CLOCK_SetSystemClockSpeed, CLOCK_SetSystemClockSpeed_evs, hband]
    by_cases h36 : s > SCS_36MHz <;>
      simp [h36, -bandEvents, -CLOCK_SetSystemClockSpeed_evs]

/-- C3 witness: 17 MHz is not a supported target; the call still commits
`currentSCS = 17 MHz` even though the multiplier field stays cleared. -/
theorem C3_default_unsupported_witness :
    (17000000 ∉ supportedSpeeds)
    ∧ (CLOCK_SetSystemClockSpeed 17000000 initialState).currentSCS = 17000000 :=
  ⟨by decide, (C3_default_unsupported 17000000 (by decide) initialState).2.2.2.2.2⟩

/-- C4: `SetFlashMemorySpeed` always programs the flash latency field of
`FLASH->ACR` to `flashLatencyFor` of the target: 0 wait-states for
targets up to 24 MHz inclusive, 1 above 24 MHz and up to 48 MHz
inclusive, else 2; the latency is monotone in the target. -/
theorem C4_flash_latency :
    (∀ (SCS_x RCC_CFGR_HPRE_x : Nat) (st : St),
       (applyEvs (SetFlashMemorySpeed_evs SCS_x RCC_CFGR_HPRE_x) st).acr &&&
         FLASH_ACR_LATENCY_Msk = flashLatencyFor SCS_x)
    ∧ (∀ s, s ≤ SCS_24MHz → flashLatencyFor s = 0)
    ∧ (∀ s, SCS_24MHz < s → s ≤ SCS_48MHz → flashLatencyFor s = 1)
    ∧ (∀ s, SCS_48MHz < s → flashLatencyFor s = 2)
    ∧ (∀ t1 t2, t1 < t2 → flashLatencyFor t1 ≤ flashLatencyFor t2) := by
  refine ⟨?_, ?_, ?_, ?_, ?_⟩
  case _ =>
    intro s hpre st
    simp only [SetFlashMemorySpeed_evs, flashLatencyFor]
    split_ifs <;>
      norm_num [lorLandDistrib, Nat.and_assoc, Nat.or_assoc] <;>
      first
        | (refine closedFold _ _ _ _ ?_ ?_) <;> decide
        | (refine closedFold0 _ _ ?_) <;> decide
  case _ =>
    intro s h
    simp only [flashLatencyFor, SCS_24MHz, FLASH_ACR_LATENCY_0] at *
    split_ifs <;> omega
  case _ =>
    intro s h1 h2
    simp only [flashLatencyFor, SCS_24MHz, SCS_48MHz, FLASH_ACR_LATENCY_0,
      FLASH_ACR_LATENCY_1] at *
    split_ifs <;> omega
  case _ =>
    intro s h
    simp only [flashLatencyFor, SCS_24MHz, SCS_48MHz, FLASH_ACR_LATENCY_0,
      FLASH_ACR_LATENCY_1, FLASH_ACR_LATENCY_2] at *
    split_ifs <;> omega
  case _ =>
    intro t1 t2 h
    simp only [flashLatencyFor, SCS_24MHz, SCS_48MHz, FLASH_ACR_LATENCY_0,
      FLASH_ACR_LATENCY_1, FLASH_ACR_LATENCY_2]
    split_ifs <;> omega

/-- C4 witness: the boundaries are inclusive on the lower-latency side
and latency is monotone across them. -/
theorem C4_flash_latency_witness :
    flashLatencyFor SCS_24MHz = 0 ∧ flashLatencyFor SCS_48MHz = 1
    ∧ flashLatencyFor SCS_52MHz = 2 ∧ flashLatencyFor SCS_24MHz ≤ flashLatencyFor SCS_48MHz
    ∧ (applyEvs (SetFlashMemorySpeed_evs SCS_72MHz RCC_CFGR_HPRE_DIV1) initialState).acr &&&
        FLASH_ACR_LATENCY_Msk = flashLatencyFor SCS_72MHz :=
  ⟨C4_flash_latency.2.1 SCS_24MHz (by decide),
   C4_flash_latency.2.2.1 SCS_48MHz (by decide) (by decide),
   C4_flash_latency.2.2.2.1 SCS_52MHz (by decide),
   C4_flash_latency.2.2.2.2 SCS_24MHz SCS_48MHz (by decide),
   C4_flash_latency.1 SCS_72MHz RCC_CFGR_HPRE_DIV1 initialState⟩

set_option maxHeartbeats 4000000 in
/-- C5: for every supported target, the trace of
`CLOCK_SetSystemClockSpeed` is ordered as the spec demands: the switch
of the system clock to HSE and the PLL disable precede every event that
modifies a PLL predivider/multiplier bit; every `FLASH->ACR` write
precedes every write that sets AHB prescaler / PLL predivider / PLL
multiplier bits; all of those precede the PLL re-enable, which precedes
the switch of the system clock to the PLL — so every run passes through
the HSE-driven state before ending PLL-driven. -/
theorem C5_reconfig_ordering : ∀ s ∈ supportedSpeeds,
    (idxSwitchToHSE s < idxPLLDisable s)
    ∧ (idxPLLDisable s < idxPLLEnable s)
    ∧ (∀ k, k < (CLOCK_SetSystemClockSpeed_evs s).length →
        modifiesPLLCfgBits ((CLOCK_SetSystemClockSpeed_evs s).getD k Ev.gpioCfg) = true →
        idxPLLDisable s < k ∧ k < idxPLLEnable s)
    ∧ (∀ i, i < (CLOCK_SetSystemClockSpeed_evs s).length →
       ∀ j, j < (CLOCK_SetSystemClockSpeed_evs s).length →
        isFlashWrite ((CLOCK_SetSystemClockSpeed_evs s).getD i Ev.gpioCfg) = true →
        setsCoreClockCfgBits ((CLOCK_SetSystemClockSpeed_evs s).getD j Ev.gpioCfg) = true →
        i < j)
    ∧ (∀ i, i < (CLOCK_SetSystemClockSpeed_evs s).length →
        (isFlashWrite ((CLOCK_SetSystemClockSpeed_evs s).getD i Ev.gpioCfg) = true
         ∨ setsCoreClockCfgBits ((CLOCK_SetSystemClockSpeed_evs s).getD i Ev.gpioCfg) = true
         ∨ modifiesPLLCfgBits ((CLOCK_SetSystemClockSpeed_evs s).getD i Ev.gpioCfg) = true) →
        i < idxPLLEnable s)
    ∧ (idxPLLEnable s < idxSwitchToPLL s)
    ∧ (idxSwitchToPLL s < (CLOCK_SetSystemClockSpeed_evs s).length)
    ∧ (idxSwitchToHSE s < idxSwitchToPLL s) := by
  decide

/-- C5 witness: the ordering theorem instantiated at 72 MHz — the
HSE switch precedes the PLL disable, which precedes the PLL re-enable,
which precedes the final switch to the PLL. -/
theorem C5_reconfig_ordering_witness :
    SCS_72MHz ∈ supportedSpeeds
    ∧ idxSwitchToHSE SCS_72MHz < idxPLLDisable SCS_72MHz
    ∧ idxPLLDisable SCS_72MHz < idxPLLEnable SCS_72MHz
    ∧ idxPLLEnable SCS_72MHz < idxSwitchToPLL SCS_72MHz :=
  ⟨by decide,
   (C5_reconfig_ordering SCS_72MHz (by decide)).1,
   (C5_reconfig_ordering SCS_72MHz (by decide)).2.1,
   (C5_reconfig_ordering SCS_72MHz (by decide)).2.2.2.2.2.1⟩

set_option maxHeartbeats 4000000 in
/-- C6: for every target speed, `CLOCK_SetSystemClockSpeed` stores
APB_DIV_2 into the tracked APB1 prescaler exactly when the target
exceeds 36 MHz and APB_DIV_1 otherwise; for every supported target the
`PPRE1` field of `RCC->CFGR` is programmed accordingly; consequently
after a 72 MHz call `CLOCK_GetAPB1ClockSpeed` returns 36 MHz and after
an 8 MHz call it returns 8 MHz. -/
theorem C6_apb1_auto_select :
    (∀ (s : Nat) (st : St),
      (CLOCK_SetSystemClockSpeed s st).apb1
        = (if s > SCS_36MHz then APB_DIV_2 else APB_DIV_1))
    ∧ (∀ s ∈ supportedSpeeds, ∀ st : St,
      (CLOCK_SetSystemClockSpeed s st).cfgr &&& RCC_CFGR_PPRE1_Msk
        = ((if s > SCS_36MHz then APB_DIV_2 else APB_DIV_1) <<< RCC_CFGR_PPRE1_Pos))
    ∧ (∀ st : St, CLOCK_GetAPB1ClockSpeed (CLOCK_SetSystemClockSpeed SCS_72MHz st) = 36000000)
    ∧ (∀ st : St, CLOCK_GetAPB1ClockSpeed (CLOCK_SetSystemClockSpeed SCS_8MHz st) = 8000000) := by
  refine ⟨?_, ?_, ?_, ?_⟩
  case _ =>
    intro s st
    simp only [CLOCK_SetSystemClockSpeed, CLOCK_SetSystemClockSpeed_evs, applyEvs_append]
    simp [-bandEvents, -CLOCK_SetSystemClockSpeed_evs]
  case _ =>
    intro s hs st
    simp only [supportedSpeeds, List.mem_cons, List.mem_nil_iff, or_false] at hs
    rcases hs with rfl|rfl|rfl|rfl|rfl|rfl|rfl|rfl|rfl|rfl|rfl|rfl|rfl|rfl|rfl|rfl|rfl|rfl|
      rfl|rfl|rfl|rfl|rfl|rfl|rfl|rfl|rfl|rfl|rfl|rfl|rfl|rfl|rfl <;>
    norm_num [lorLandDistrib, Nat.and_assoc, Nat.or_assoc] <;>
    (refine closedFold _ _ _ _ ?_ ?_) <;> decide
  case _ =>
    intro st
    norm_num
  case _ =>
    intro st
    norm_num

/-- C6 witness: the tracked-prescaler rule and the scenario results at
72 MHz from the power-on state. -/
theorem C6_apb1_auto_select_witness :
    (CLOCK_SetSystemClockSpeed SCS_72MHz initialState).apb1
      = (if SCS_72MHz > SCS_36MHz then APB_DIV_2 else APB_DIV_1)
    ∧ SCS_72MHz ∈ supportedSpeeds
    ∧ CLOCK_GetAPB1ClockSpeed (CLOCK_SetSystemClockSpeed SCS_72MHz initialState) = 36000000 :=
  ⟨C6_apb1_auto_select.1 SCS_72MHz initialState,
   by decide,
   C6_apb1_auto_select.2.2.1 initialState⟩

/-- Helper: `CLOCK_SetSystemClockSpeed` always ends by committing its
argument into the tracked `currentSCS`. -/
theorem setSCS_currentSCS (s : Nat) (st : St) :
    (CLOCK_SetSystemClockSpeed s st).currentSCS = s := by
  simp only [CLOCK_SetSystemClockSpeed, CLOCK_SetSystemClockSpeed_evs, applyEvs_append]
  simp [-bandEvents, -CLOCK_SetSystemClockSpeed_evs]

/-- C7: for every valid MCO selector, `CLOCK_SetMcoOutput` writes the
divide-by-2-of-PLL selector into the MCO field of `RCC->CFGR` whenever
the tracked system clock exceeds 50 MHz, regardless of the requested
selector; otherwise it writes the requested selector. -/
theorem C7_mco_clamp (st : St) (MCO_x : Nat)
    (hm : MCO_x ∈ [RCC_CFGR_MCO_NOCLOCK, RCC_CFGR_MCO_SYSCLK, RCC_CFGR_MCO_HSI,
                   RCC_CFGR_MCO_HSE, RCC_CFGR_MCO_PLLCLK_DIV2]) :
    (st.currentSCS > MAX_MCO_CLK_SPEED →
       (CLOCK_SetMcoOutput MCO_x st).cfgr &&& RCC_CFGR_MCO_Msk = RCC_CFGR_MCO_PLLCLK_DIV2)
    ∧ (st.currentSCS ≤ MAX_MCO_CLK_SPEED →
       (CLOCK_SetMcoOutput MCO_x st).cfgr &&& RCC_CFGR_MCO_Msk = MCO_x) := by
  simp only [List.mem_cons, List.mem_nil_iff, or_false] at hm
  constructor
  · intro h
    simp only [CLOCK_SetMcoOutput, CLOCK_SetMcoOutput_evs]
    rw [if_pos h]
    norm_num [lorLandDistrib, Nat.and_assoc, Nat.or_assoc]
    (refine closedFold _ _ _ _ ?_ ?_) <;> decide
  · intro h
    simp only [CLOCK_SetMcoOutput, CLOCK_SetMcoOutput_evs]
    rw [if_neg (Nat.not_lt.mpr h)]
    rcases hm with rfl|rfl|rfl|rfl|rfl <;>
      norm_num [lorLandDistrib, Nat.and_assoc, Nat.or_assoc] <;>
      first
        | (refine closedFold _ _ _ _ ?_ ?_) <;> decide
        | (refine closedFold0 _ _ ?_) <;> decide

/-- C7 witness: with the tracked clock at 72 MHz the requested SYSCLK
selector is overridden by the PLL/2 selector; with the tracked clock at
its power-on value the requested selector is written. -/
theorem C7_mco_clamp_witness :
    RCC_CFGR_MCO_SYSCLK ∈ [RCC_CFGR_MCO_NOCLOCK, RCC_CFGR_MCO_SYSCLK, RCC_CFGR_MCO_HSI,
                           RCC_CFGR_MCO_HSE, RCC_CFGR_MCO_PLLCLK_DIV2]
    ∧ (CLOCK_SetMcoOutput RCC_CFGR_MCO_SYSCLK { initialState with currentSCS := SCS_72MHz }).cfgr
        &&& RCC_CFGR_MCO_Msk = RCC_CFGR_MCO_PLLCLK_DIV2
    ∧ (CLOCK_SetMcoOutput RCC_CFGR_MCO_SYSCLK initialState).cfgr
        &&& RCC_CFGR_MCO_Msk = RCC_CFGR_MCO_SYSCLK :=
  ⟨by decide,
   (C7_mco_clamp { initialState with currentSCS := SCS_72MHz } RCC_CFGR_MCO_SYSCLK
      (by decide)).1 (by decide),
   (C7_mco_clamp initialState RCC_CFGR_MCO_SYSCLK (by decide)).2 (by decide)⟩

/-- Helper: the effect of one operation on the tracked `currentSCS`:
`SetSystemClockSpeed` commits its argument, every other operation
(`SetMcoOutput`, the APB1/APB2/ADC prescaler setters) leaves it
unchanged. -/
theorem runOp_currentSCS (st : St) (op : Op) :
    (runOp st op).currentSCS
      = match op with
        | Op.setSCS s => s
        | _ => st.currentSCS := by
  cases op with
  | setSCS s => exact setSCS_currentSCS s st
  | setMco m =>
      simp [runOp, CLOCK_SetMcoOutput, CLOCK_SetMcoOutput_evs]
  | setAPB1 p => simp [runOp, CLOCK_SetAPB1Prescaler]
  | setAPB2 p => simp [runOp, CLOCK_SetAPB2Prescaler]
  | setADC d => simp [runOp, CLOCK_SetADCPrescaler]

/-- Helper: after any operation sequence the tracked `currentSCS` is the
argument of the last `SetSystemClockSpeed` call in the sequence, or the
prior value when the sequence contains no such call. -/
theorem exec_currentSCS (ops : List Op) (st : St) :
    (exec ops st).currentSCS = (lastSCS ops).getD st.currentSCS := by
  induction ops generalizing st with
  | nil => rfl
  | cons op rest ih =>
      show (exec rest (runOp st op)).currentSCS = (lastSCS (op :: rest)).getD st.currentSCS
      rw [ih (runOp st op), runOp_currentSCS]
      simp only [lastSCS]
      cases hrest : lastSCS rest with
      | some s' => rfl
      | none => cases op <;> rfl

/-- C8: after any sequence of operations the derived-frequency queries
are the tracked system clock divided by the divisor of the tracked
prescaler; the divisor mapping is DIV1→1, DIV2→2, DIV4→4, DIV8→8,
DIV16→16 with default 1; after any operation sequence whose last
`SetSystemClockSpeed` call took a supported target — with any trailing
non-configuration operations — the tracked clock is that last applied
target, and a sequence with no configuration call leaves the tracked
clock unchanged; and `CLOCK_GetSystemClockSpeed` is a pure read of the
tracked state. -/
theorem C8_state_invariants :
    (∀ (ops : List Op) (st : St),
      CLOCK_GetAPB1ClockSpeed (exec ops st)
        = CLOCK_GetSystemClockSpeed (exec ops st) / APBxPrescalerToDivisor (exec ops st).apb1
      ∧ CLOCK_GetAPB2ClockSpeed (exec ops st)
        = CLOCK_GetSystemClockSpeed (exec ops st) / APBxPrescalerToDivisor (exec ops st).apb2)
    ∧ (APBxPrescalerToDivisor APB_DIV_1 = 1 ∧ APBxPrescalerToDivisor APB_DIV_2 = 2
       ∧ APBxPrescalerToDivisor APB_DIV_4 = 4 ∧ APBxPrescalerToDivisor APB_DIV_8 = 8
       ∧ APBxPrescalerToDivisor APB_DIV_16 = 16)
    ∧ (∀ p : Nat, p ∉ [APB_DIV_1, APB_DIV_2, APB_DIV_4, APB_DIV_8, APB_DIV_16] →
        APBxPrescalerToDivisor p = 1)
    ∧ (∀ (ops : List Op) (st : St), ∀ s ∈ supportedSpeeds,
        lastSCS ops = some s → (exec ops st).currentSCS = s)
    ∧ (∀ (ops : List Op) (st : St),
        lastSCS ops = none → (exec ops st).currentSCS = st.currentSCS)
    ∧ (∀ st : St, CLOCK_GetSystemClockSpeed st = st.currentSCS) := by
  refine ⟨fun ops st => ⟨rfl, rfl⟩, by decide, ?_, ?_, ?_, fun st => rfl⟩
  · intro p hp
    simp only [List.mem_cons, List.mem_nil_iff, or_false, not_or] at hp
    obtain ⟨h1, h2, h4, h8, h16⟩ := hp
    simp only [APBxPrescalerToDivisor, if_neg h16, if_neg h8, if_neg h4, if_neg h2]
  · intro ops st s _hs hlast
    rw [exec_currentSCS, hlast]
    rfl
  · intro ops st hlast
    rw [exec_currentSCS, hlast]
    rfl

/-- C8 witness: a sequence whose supported `SetSystemClockSpeed` call is
followed by trailing non-configuration operations still tracks that last
applied target. -/
theorem C8_state_invariants_witness :
    SCS_72MHz ∈ supportedSpeeds
    ∧ lastSCS [Op.setAPB2 APB_DIV_4, Op.setSCS SCS_72MHz, Op.setADC 0x8000,
               Op.setMco RCC_CFGR_MCO_HSE, Op.setAPB1 APB_DIV_2] = some SCS_72MHz
    ∧ (exec [Op.setAPB2 APB_DIV_4, Op.setSCS SCS_72MHz, Op.setADC 0x8000,
             Op.setMco RCC_CFGR_MCO_HSE, Op.setAPB1 APB_DIV_2] initialState).currentSCS
        = SCS_72MHz :=
  ⟨by decide, by decide,
   C8_state_invariants.2.2.2.1
     [Op.setAPB2 APB_DIV_4, Op.setSCS SCS_72MHz, Op.setADC 0x8000,
      Op.setMco RCC_CFGR_MCO_HSE, Op.setAPB1 APB_DIV_2]
     initialState SCS_72MHz (by decide) (by decide)⟩

/-- C9: in every state, the APB1 timer clock query returns exactly twice
the APB1 clock query (the source computes `CLOCK_GetAPB1ClockSpeed() * 2`). -/
theorem C9_apb1_timer_double (st : St) :
    CLOCK_GetAPB1TimerClockSpeed st = 2 * CLOCK_GetAPB1ClockSpeed st := by
  simp only [CLOCK_GetAPB1TimerClockSpeed]
  exact Nat.mul_comm _ 2

/-- C9 witness: the doubling relation evaluated in the state reached by
configuring 72 MHz from power-on (timer clock 72 MHz, APB1 clock 36 MHz). -/
theorem C9_apb1_timer_double_witness :
    CLOCK_GetAPB1TimerClockSpeed (CLOCK_SetSystemClockSpeed SCS_72MHz initialState)
      = 2 * CLOCK_GetAPB1ClockSpeed (CLOCK_SetSystemClockSpeed SCS_72MHz initialState) :=
  C9_apb1_timer_double (CLOCK_SetSystemClockSpeed SCS_72MHz initialState)

/-- C10: `APBxPrescalerToDivisor` is total on all integer inputs and
always returns a value in {1,2,4,8,16} — never 0 (the `default` case
maps everything outside the enumeration to 1) — so the APB1/APB2 clock
queries never divide by zero, including in the power-on state where no
prescaler has ever been set. -/
theorem C10_divisor_total :
    (∀ p : Nat, APBxPrescalerToDivisor p ∈ ([1, 2, 4, 8, 16] : List Nat)
      ∧ 0 < APBxPrescalerToDivisor p)
    ∧ APBxPrescalerToDivisor initialState.apb1 = 1
    ∧ APBxPrescalerToDivisor initialState.apb2 = 1 := by
  refine ⟨?_, by decide, by decide⟩
  intro p
  simp only [APBxPrescalerToDivisor]
  split_ifs <;> simp

end ACDC
